import Mathlib

/-!
Verification of the client-side authentication/session cache of `external_ui`
(`src/lib/auth.ts`): the persisted session store (`tokenStorage`,
`userStorage`), the authentication gateway (`authApi`), the session service
(`authService`), and the zod validation schemas (`signUpSchema`,
`signInSchema`).

The browser pieces are embedded as follows.

* `localStorage` is the two-slot `Store` (keys `auth_token` and `auth_user`);
  `getItem` returning `null` is `Option.none`.  All operations are synchronous
  and single-threaded in the source, so they become plain state-passing
  functions.
* A JavaScript runtime value that the code handles dynamically (the result of
  `JSON.parse`, the `error` payload) is a `Json` tree.  The JS `null` is
  `Json.null`; erasing the distinction between "absent" and "null" matches
  `userStorage.get`, which returns `null` both for a missing slot and for a
  stored `"null"` text.
* `JSON.parse` is `jsonParse`, a full RFC 8259 recursive-descent reader with
  the JS extras the code can observe (escape decoding, surrogate-pair
  combination).  A thrown `SyntaxError` is `Except.error`.  Two deliberate
  deviations, both unreachable from the theorems below: numbers keep their
  source lexeme instead of being converted to a float (no claim inspects a
  numeric value), and a lone surrogate escape decodes to U+FFFD because a Lean
  `String` cannot hold an unpaired surrogate.
* `JSON.stringify` of the one record shape the code ever serializes (the
  `AuthUser` of `userStorage.set`) is `stringifyUser`, using the exact
  `QuoteJSONString` escaping of the JS engine (two-character escapes for the
  named controls, lowercase `\u00XX` for the rest).
* `fetch` plus `response.json()` is the `HttpResponse` parameter: a 2xx
  response with a `{token, user}` body, a non-2xx response with its raw body
  text, or a transport failure.  Each `authApi` call also returns its
  `console.log` trace (label and logged value), with the timestamp prefix
  omitted: every entry carries one, so it never distinguishes traces.
* The zod chains `z.string().trim().min/max/email` are modelled check by
  check: `.trim()` is the JS `String.prototype.trim`, lengths are UTF-16 code
  unit counts (the JS `.length`), and `.email` is zod v3's email regular
  expression, transcribed as a decidable predicate.
-/

/-! ## JavaScript values -/

/-- A JavaScript value as the auth module can observe one: the image of
`JSON.parse`.  Numbers keep their lexeme (see the header note). -/
inductive Json where
  | null : Json
  | bool : Bool → Json
  | num : String → Json
  | str : String → Json
  | arr : List Json → Json
  | obj : List (String × Json) → Json

/-! ## JSON.parse -/

/-- JSON whitespace: space, tab, line feed, carriage return. -/
def isWs (c : Char) : Bool :=
  c == ' ' || c == '\t' || c == '\n' || c == '\x0d'

def skipWs : List Char → List Char
  | c :: cs => if isWs c then skipWs cs else c :: cs
  | [] => []

def isDigitChar (c : Char) : Bool :=
  48 ≤ c.toNat && c.toNat ≤ 57

/-- Longest digit run at the front, and the remainder. -/
def takeDigits : List Char → List Char × List Char
  | c :: cs =>
    if isDigitChar c then
      let p := takeDigits cs
      (c :: p.1, p.2)
    else ([], c :: cs)
  | [] => ([], [])

def hexDigit (n : Nat) : Char :=
  if n < 10 then Char.ofNat (n + 48) else Char.ofNat (n + 87)

def hexVal (c : Char) : Option Nat :=
  if 48 ≤ c.toNat ∧ c.toNat ≤ 57 then some (c.toNat - 48)
  else if 97 ≤ c.toNat ∧ c.toNat ≤ 102 then some (c.toNat - 87)
  else if 65 ≤ c.toNat ∧ c.toNat ≤ 70 then some (c.toNat - 55)
  else none

def hex4 (a b c d : Char) : Option Nat :=
  match hexVal a, hexVal b, hexVal c, hexVal d with
  | some ha, some hb, some hc, some hd => some (ha * 4096 + hb * 256 + hc * 16 + hd)
  | _, _, _, _ => none

/-- Whether `cs` starts with a `\uXXXX` escape holding a low surrogate;
if so, its code unit.  (The caller resumes at `cs.drop 6`.) -/
def lowSurrogateEscape (cs : List Char) : Option Nat :=
  match cs with
  | '\\' :: 'u' :: a :: b :: c :: d :: _ =>
    match hex4 a b c d with
    | some m => if 0xDC00 ≤ m ∧ m ≤ 0xDFFF then some m else none
    | none => none
  | _ => none

/-- Body of a JSON string, after the opening quote: the decoded characters and
the remainder after the closing quote.  Escapes follow `JSON.parse`: the named
escapes, `\uXXXX`, surrogate pairs combined; a lone surrogate becomes U+FFFD
(see the header note).  `fuel` makes the recursion structural; every step
consumes input, so the callers' `length + 1` cannot run out first. -/
def parseStringBody (fuel : Nat) (cs : List Char) : Option (List Char × List Char) :=
  match fuel with
  | 0 => none
  | fuel + 1 =>
    match cs with
    | [] => none
    | c :: rest =>
      if c = '"' then some ([], rest)
      else if c = '\\' then
        match rest with
        | [] => none
        | e :: rest1 =>
          if e = '"' then (parseStringBody fuel rest1).map (fun p => ('"' :: p.1, p.2))
          else if e = '\\' then (parseStringBody fuel rest1).map (fun p => ('\\' :: p.1, p.2))
          else if e = '/' then (parseStringBody fuel rest1).map (fun p => ('/' :: p.1, p.2))
          else if e = 'b' then (parseStringBody fuel rest1).map (fun p => ('\x08' :: p.1, p.2))
          else if e = 'f' then (parseStringBody fuel rest1).map (fun p => ('\x0c' :: p.1, p.2))
          else if e = 'n' then (parseStringBody fuel rest1).map (fun p => ('\n' :: p.1, p.2))
          else if e = 'r' then (parseStringBody fuel rest1).map (fun p => ('\x0d' :: p.1, p.2))
          else if e = 't' then (parseStringBody fuel rest1).map (fun p => ('\t' :: p.1, p.2))
          else if e = 'u' then
            match rest1 with
            | a :: b :: c2 :: d :: rest2 =>
              match hex4 a b c2 d with
              | some n =>
                if 0xD800 ≤ n ∧ n ≤ 0xDBFF then
                  match lowSurrogateEscape rest2 with
                  | some m =>
                    (parseStringBody fuel (rest2.drop 6)).map (fun p =>
                      (Char.ofNat (0x10000 + (n - 0xD800) * 1024 + (m - 0xDC00)) :: p.1, p.2))
                  | none =>
                    (parseStringBody fuel rest2).map (fun p => ('�' :: p.1, p.2))
                else if 0xDC00 ≤ n ∧ n ≤ 0xDFFF then
                  (parseStringBody fuel rest2).map (fun p => ('�' :: p.1, p.2))
                else
                  (parseStringBody fuel rest2).map (fun p => (Char.ofNat n :: p.1, p.2))
              | none => none
            | _ => none
          else none
      else if c.toNat < 32 then none
      else (parseStringBody fuel rest).map (fun p => (c :: p.1, p.2))

/-- A whole JSON string body: `parseStringBody` with enough fuel for its
input (one step per decoded character, and every step consumes input). -/
def parseStr (cs : List Char) : Option (List Char × List Char) :=
  parseStringBody (cs.length + 1) cs

/-- Optional fraction part of a number (empty when absent). -/
def parseFrac (cs : List Char) : Option (List Char × List Char) :=
  match cs with
  | '.' :: r =>
    match takeDigits r with
    | ([], _) => none
    | (ds, r1) => some ('.' :: ds, r1)
  | _ => some ([], cs)

/-- Optional exponent part of a number (empty when absent). -/
def parseExp (cs : List Char) : Option (List Char × List Char) :=
  match cs with
  | e :: r =>
    if e = 'e' ∨ e = 'E' then
      let sr := match r with
        | '+' :: r2 => (['+'], r2)
        | '-' :: r2 => (['-'], r2)
        | _ => (([] : List Char), r)
      match takeDigits sr.2 with
      | ([], _) => none
      | (ds, r2) => some (e :: sr.1 ++ ds, r2)
    else some ([], cs)
  | [] => some ([], [])

/-- A JSON number: its lexeme and the remainder. -/
def parseNumber (cs : List Char) : Option (List Char × List Char) :=
  let sp := match cs with
    | '-' :: r => ((['-'] : List Char), r)
    | _ => (([] : List Char), cs)
  match sp.2 with
  | c :: r =>
    let ip : Option (List Char × List Char) :=
      if c = '0' then some (['0'], r)
      else if isDigitChar c then
        let p := takeDigits r
        some (c :: p.1, p.2)
      else none
    match ip with
    | none => none
    | some (ids, r1) =>
      match parseFrac r1 with
      | none => none
      | some (fds, r2) =>
        match parseExp r2 with
        | none => none
        | some (eds, r3) => some (sp.1 ++ ids ++ fds ++ eds, r3)
  | [] => none

mutual

/-- A JSON value, by recursive descent.  `fuel` only bounds the recursion;
`jsonParse` passes one more than the input length, which a nesting step can
never exhaust before the input runs out. -/
def parseValue (fuel : Nat) (cs : List Char) : Option (Json × List Char) :=
  match fuel with
  | 0 => none
  | fuel + 1 =>
    match skipWs cs with
    | [] => none
    | c :: rest =>
      if c = '"' then (parseStr rest).map (fun p => (Json.str (String.mk p.1), p.2))
      else if c = '{' then
        match skipWs rest with
        | [] => none
        | c2 :: r2 =>
          if c2 = '}' then some (Json.obj [], r2)
          else (parseMembers fuel (c2 :: r2)).map (fun p => (Json.obj p.1, p.2))
      else if c = '[' then
        match skipWs rest with
        | [] => none
        | c2 :: r2 =>
          if c2 = ']' then some (Json.arr [], r2)
          else (parseItems fuel (c2 :: r2)).map (fun p => (Json.arr p.1, p.2))
      else if c = 't' then
        match rest with
        | 'r' :: 'u' :: 'e' :: r => some (Json.bool true, r)
        | _ => none
      else if c = 'f' then
        match rest with
        | 'a' :: 'l' :: 's' :: 'e' :: r => some (Json.bool false, r)
        | _ => none
      else if c = 'n' then
        match rest with
        | 'u' :: 'l' :: 'l' :: r => some (Json.null, r)
        | _ => none
      else (parseNumber (c :: rest)).map (fun p => (Json.num (String.mk p.1), p.2))

/-- The items of a non-empty array, up to and including the closing bracket. -/
def parseItems (fuel : Nat) (cs : List Char) : Option (List Json × List Char) :=
  match fuel with
  | 0 => none
  | fuel + 1 =>
    match parseValue fuel cs with
    | none => none
    | some (v, r) =>
      match skipWs r with
      | [] => none
      | c :: r1 =>
        if c = ',' then (parseItems fuel r1).map (fun p => (v :: p.1, p.2))
        else if c = ']' then some ([v], r1)
        else none

/-- The members of a non-empty object, up to and including the closing brace. -/
def parseMembers (fuel : Nat) (cs : List Char) : Option (List (String × Json) × List Char) :=
  match fuel with
  | 0 => none
  | fuel + 1 =>
    match skipWs cs with
    | [] => none
    | c :: rest =>
      if c = '"' then
        match parseStr rest with
        | none => none
        | some (k, r1) =>
          match skipWs r1 with
          | [] => none
          | c2 :: r2 =>
            if c2 = ':' then
              match parseValue fuel r2 with
              | none => none
              | some (v, r3) =>
                match skipWs r3 with
                | [] => none
                | c3 :: r4 =>
                  if c3 = ',' then
                    (parseMembers fuel r4).map (fun p => ((String.mk k, v) :: p.1, p.2))
                  else if c3 = '}' then some ([(String.mk k, v)], r4)
                  else none
            else none
      else none

end

/-- The message `jsonParse` reports.  The browser's `SyntaxError` texts vary
by engine and input; nothing in the source reads them, so one constant
stands for all of them. -/
def syntaxErrorMsg : String := "Unexpected token in JSON"

/-- `JSON.parse`: a thrown `SyntaxError` is `Except.error`. -/
def jsonParse (s : String) : Except String Json :=
  match parseValue (s.data.length + 1) s.data with
  | some (v, r) => if skipWs r = [] then Except.ok v else Except.error syntaxErrorMsg
  | none => Except.error syntaxErrorMsg

/-! ## JSON.stringify, for the one shape the code serializes -/

/-- One character as `JSON.stringify` emits it inside a string: `\"`, `\\`,
the named control escapes, `\u00XX` (lowercase hex) for the remaining
controls, and every other character itself. -/
def escapeChar (c : Char) : List Char :=
  if c = '"' then ['\\', '"']
  else if c = '\\' then ['\\', '\\']
  else if c = '\x08' then ['\\', 'b']
  else if c = '\t' then ['\\', 't']
  else if c = '\n' then ['\\', 'n']
  else if c = '\x0c' then ['\\', 'f']
  else if c = '\x0d' then ['\\', 'r']
  else if c.toNat < 32 then ['\\', 'u', '0', '0', hexDigit (c.toNat / 16), hexDigit (c.toNat % 16)]
  else [c]

def escapeChars (cs : List Char) : List Char := cs.flatMap escapeChar

/-- A string with its quotes, as `JSON.stringify` renders it. -/
def quoteStr (s : String) : List Char := '"' :: (escapeChars s.data ++ ['"'])

/-! ## The auth module's data -/

/-- The `AuthUser` interface: `{id, email, name?}`.  `name := none` is the
property being omitted (an `undefined` property is dropped by
`JSON.stringify`, so the two are indistinguishable downstream). -/
structure AuthUser where
  id : String
  email : String
  name : Option String := none
deriving DecidableEq

/-- An `AuthUser` as the JS object it is at runtime, property order `id`,
`email`, `name` as declared. -/
def userToJson (u : AuthUser) : Json :=
  Json.obj ([("id", Json.str u.id), ("email", Json.str u.email)] ++
    (match u.name with
     | some n => [("name", Json.str n)]
     | none => []))

/-- `JSON.stringify` of an `AuthUser` object. -/
def stringifyUser (u : AuthUser) : String :=
  String.mk ('{' :: (quoteStr "id" ++ ':' :: quoteStr u.id ++
    ',' :: quoteStr "email" ++ ':' :: quoteStr u.email ++
    (match u.name with
     | some n => ',' :: quoteStr "name" ++ ':' :: quoteStr n
     | none => []) ++ ['}']))

/-- The `AuthResponse` interface: the success body `{token, user}`. -/
structure AuthResponse where
  token : String
  user : AuthUser
deriving DecidableEq

structure SignUpInput where
  name : String
  email : String
  password : String
deriving DecidableEq

structure SignInInput where
  email : String
  password : String
deriving DecidableEq

/-! ## The persisted session store -/

/-- The two origin-scoped `localStorage` slots the module owns: keys
`auth_token` and `auth_user`.  `none` is an unset key. -/
structure Store where
  token : Option String := none
  user : Option String := none
deriving DecidableEq

def initialStore : Store := {}

def tokenStorage.get (st : Store) : Option String := st.token

def tokenStorage.set (t : String) (st : Store) : Store := { st with token := some t }

def tokenStorage.remove (st : Store) : Store := { st with token := none }

/-- `getAuthHeader`: `token ? {Authorization: ...} : {}` — the JS truthiness
test, so an empty-string token also yields the empty mapping. -/
def tokenStorage.getAuthHeader (st : Store) : List (String × String) :=
  match tokenStorage.get st with
  | some t => if t = "" then [] else [("Authorization", "Bearer " ++ t)]
  | none => []

/-- `userStorage.get`: `user ? JSON.parse(user) : null`.  The slot being unset
or holding `""` is falsy, hence `null` without parsing; otherwise the parse
result is returned as is (no shape check), and a parse failure propagates. -/
def userStorage.get (st : Store) : Except String Json :=
  match st.user with
  | none => Except.ok Json.null
  | some s => if s = "" then Except.ok Json.null else jsonParse s

def userStorage.set (u : AuthUser) (st : Store) : Store :=
  { st with user := some (stringifyUser u) }

def userStorage.remove (st : Store) : Store := { st with user := none }

/-! ## The authentication gateway -/

/-- What the `fetch` of one auth call came to: a 2xx response (whose body the
code reads as `{token, user}`), a non-2xx response with its raw body text, or
a transport failure (a rejected `fetch`). -/
inductive HttpResponse where
  | ok (body : AuthResponse)
  | fail (bodyText : String)
  | netError (message : String)

/-- JS truthiness of a parsed JSON value.  A number is falsy exactly when its
mantissa digits are all zero (NaN cannot come out of `JSON.parse`). -/
def jsTruthy : Json → Bool
  | Json.null => false
  | Json.bool b => b
  | Json.num lex =>
    !((lex.data.takeWhile (fun c => !(c == 'e' || c == 'E'))).all
      (fun c => !(isDigitChar c) || c == '0'))
  | Json.str s => !(s == "")
  | Json.arr _ => true
  | Json.obj _ => true

mutual

/-- JS `String(v)` for a parsed JSON value, as `new Error(v)` applies it.
Number formatting is approximated by the lexeme (the engine would reformat
the float; no theorem below evaluates this branch on a number). -/
def jsToString : Json → String
  | Json.null => "null"
  | Json.bool true => "true"
  | Json.bool false => "false"
  | Json.num lex => lex
  | Json.str s => s
  | Json.obj _ => "[object Object]"
  | Json.arr es => jsArrToString es

/-- Array conversion: elements joined by commas. -/
def jsArrToString : List Json → String
  | [] => ""
  | [v] => jsElemToString v
  | v :: rest => jsElemToString v ++ "," ++ jsArrToString rest

/-- An element inside an array: `null` renders empty there. -/
def jsElemToString : Json → String
  | Json.null => ""
  | v => jsToString v

end

/-- Property lookup on a parsed object: `JSON.parse` keeps the last duplicate
of a key, so the last binding wins. -/
def jsonLookupLast (ms : List (String × Json)) (k : String) : Option Json :=
  match ms with
  | [] => none
  | (k', v) :: rest =>
    match jsonLookupLast rest k with
    | some w => some w
    | none => if k' = k then some v else none

/-- The message of the error thrown on a non-2xx response, given the parsed
(or substituted) payload: `error.detail || generic`.  Reading `.detail` off a
parsed `null` throws a `TypeError` instead; its message stands in for that
thrown error.  A non-object payload has no `detail`, hence the generic. -/
def errorDetailMessage (generic : String) (err : Json) : String :=
  match err with
  | Json.null => "Cannot read properties of null (reading 'detail')"
  | Json.obj ms =>
    match jsonLookupLast ms "detail" with
    | some v => if jsTruthy v then jsToString v else generic
    | none => generic
  | _ => generic

/-- A `console.log` line: the label and the logged value (the timestamp
prefix, present on every line, is omitted). -/
abbrev LogEntry := String × Option Json

def signUpInputToJson (d : SignUpInput) : Json :=
  Json.obj [("name", Json.str d.name), ("email", Json.str d.email),
    ("password", Json.str d.password)]

def signInInputToJson (d : SignInInput) : Json :=
  Json.obj [("email", Json.str d.email), ("password", Json.str d.password)]

def authResponseToJson (r : AuthResponse) : Json :=
  Json.obj [("token", Json.str r.token), ("user", userToJson r.user)]

/-- `authApi.signUp`: logs the full request record, posts it, and on a
non-2xx response parses the body (substituting `{detail: "Sign up failed"}`
when unparseable) and throws `error.detail || "Sign up failed"`. -/
def authApi.signUp (data : SignUpInput) (resp : HttpResponse) :
    Except String AuthResponse × List LogEntry :=
  let reqLog : LogEntry := ("SIGNUP_REQUEST", some (signUpInputToJson data))
  match resp with
  | HttpResponse.netError m => (Except.error m, [reqLog])
  | HttpResponse.fail bodyText =>
    let err : Json :=
      match jsonParse bodyText with
      | Except.ok j => j
      | Except.error _ => Json.obj [("detail", Json.str "Sign up failed")]
    (Except.error (errorDetailMessage "Sign up failed" err),
      [reqLog, ("SIGNUP_ERROR", some err)])
  | HttpResponse.ok r =>
    (Except.ok r, [reqLog, ("SIGNUP_SUCCESS", some (authResponseToJson r))])

/-- `authApi.signIn`: same shape as `authApi.signUp` with the sign-in
endpoint, labels and generic message. -/
def authApi.signIn (data : SignInInput) (resp : HttpResponse) :
    Except String AuthResponse × List LogEntry :=
  let reqLog : LogEntry := ("SIGNIN_REQUEST", some (signInInputToJson data))
  match resp with
  | HttpResponse.netError m => (Except.error m, [reqLog])
  | HttpResponse.fail bodyText =>
    let err : Json :=
      match jsonParse bodyText with
      | Except.ok j => j
      | Except.error _ => Json.obj [("detail", Json.str "Sign in failed")]
    (Except.error (errorDetailMessage "Sign in failed" err),
      [reqLog, ("SIGNIN_ERROR", some err)])
  | HttpResponse.ok r =>
    (Except.ok r, [reqLog, ("SIGNIN_SUCCESS", some (authResponseToJson r))])

/-! ## The session service

An `auth:changed` `CustomEvent` is its payload: the new user, or `none` for
the JS `null` of a sign-out.  Each operation returns the list of events it
dispatched, in order. -/

/-- `authService.signUp`: on gateway success, store the token, store the
user, dispatch `auth:changed` with the new user; on gateway failure,
rethrow with no store write and no event. -/
def authService.signUp (data : SignUpInput) (resp : HttpResponse) (st : Store) :
    Except String AuthResponse × Store × List (Option Json) :=
  match (authApi.signUp data resp).1 with
  | Except.error e => (Except.error e, st, [])
  | Except.ok r =>
    (Except.ok r, userStorage.set r.user (tokenStorage.set r.token st),
      [some (userToJson r.user)])

/-- `authService.signIn`: same flow as `authService.signUp` through the
sign-in gateway call. -/
def authService.signIn (data : SignInInput) (resp : HttpResponse) (st : Store) :
    Except String AuthResponse × Store × List (Option Json) :=
  match (authApi.signIn data resp).1 with
  | Except.error e => (Except.error e, st, [])
  | Except.ok r =>
    (Except.ok r, userStorage.set r.user (tokenStorage.set r.token st),
      [some (userToJson r.user)])

/-- `authService.signOut`: remove the token, remove the user, dispatch
`auth:changed` with `null`. -/
def authService.signOut (st : Store) : Store × List (Option Json) :=
  (userStorage.remove (tokenStorage.remove st), [none])

/-- `authService.isAuthenticated`: `!!tokenStorage.get()` — true exactly for
a present, non-empty token. -/
def authService.isAuthenticated (st : Store) : Bool :=
  match tokenStorage.get st with
  | some t => if t = "" then false else true
  | none => false

def authService.getCurrentUser (st : Store) : Except String Json :=
  userStorage.get st

/-! ## Reachable states of the store -/

/-- One `authService` call, with the backend's behaviour for it. -/
inductive AuthOp where
  | signUp (data : SignUpInput) (resp : HttpResponse)
  | signIn (data : SignInInput) (resp : HttpResponse)
  | signOut

def applyOp (st : Store) : AuthOp → Store
  | AuthOp.signUp d r => (authService.signUp d r st).2.1
  | AuthOp.signIn d r => (authService.signIn d r st).2.1
  | AuthOp.signOut => (authService.signOut st).1

/-- The store after a sequence of `authService` calls from the initial
(empty) store. -/
def runOps (ops : List AuthOp) : Store := ops.foldl applyOp initialStore

/-! ## The zod validation schemas -/

/-- The JS `String.prototype.trim` character class: ECMAScript WhiteSpace and
LineTerminator. -/
def jsWhitespace (c : Char) : Bool :=
  let n := c.toNat
  n == 32 || n == 9 || n == 10 || n == 13 || n == 11 || n == 12 ||
  n == 0xa0 || n == 0x1680 || (0x2000 ≤ n && n ≤ 0x200a) ||
  n == 0x2028 || n == 0x2029 || n == 0x202f || n == 0x205f ||
  n == 0x3000 || n == 0xfeff

/-- The JS `String.prototype.trim`. -/
def jsTrim (s : String) : String :=
  String.mk (((s.data.dropWhile jsWhitespace).reverse.dropWhile jsWhitespace).reverse)

/-- The JS `.length`: UTF-16 code units. -/
def utf16Length (s : String) : Nat :=
  s.data.foldl (fun acc c => acc + (if c.toNat < 0x10000 then 1 else 2)) 0

def isAsciiAlpha (c : Char) : Bool :=
  (65 ≤ c.toNat && c.toNat ≤ 90) || (97 ≤ c.toNat && c.toNat ≤ 122)

def isAsciiAlphaNum (c : Char) : Bool :=
  isAsciiAlpha c || isDigitChar c

def isLocalChar (c : Char) : Bool :=
  isAsciiAlphaNum c || c == '_' || c == '\'' || c == '+' || c == '-' || c == '.'

def isLocalEndChar (c : Char) : Bool :=
  isAsciiAlphaNum c || c == '_' || c == '+' || c == '-'

def isLabelTailChar (c : Char) : Bool :=
  isAsciiAlphaNum c || c == '-'

def noDoubleDot : List Char → Bool
  | c1 :: c2 :: rest => if c1 == '.' && c2 == '.' then false else noDoubleDot (c2 :: rest)
  | _ => true

def domainLabelOk (lbl : List Char) : Bool :=
  match lbl with
  | [] => false
  | c :: rest => isAsciiAlphaNum c && rest.all isLabelTailChar

def tldOk (lbl : List Char) : Bool :=
  decide (2 ≤ lbl.length) && lbl.all isAsciiAlpha

/-- Zod v3's `.email()` regular expression, transcribed: no leading dot, no
double dot anywhere, a local part of the word/quote/sign/dot class ending in
a non-dot non-quote, one `@`, then dot-separated alphanumeric-and-hyphen
labels and an alphabetic top-level label of length at least two. -/
def zodEmailCheck (s : String) : Bool :=
  let cs := s.data
  (match cs with
   | [] => false
   | c :: _ => !(c == '.')) &&
  noDoubleDot cs &&
  (match cs.splitOn '@' with
   | [lp, dp] =>
     !lp.isEmpty && lp.all isLocalChar &&
     (match lp.getLast? with
      | some c => isLocalEndChar c
      | none => false) &&
     (let parts := dp.splitOn '.'
      decide (2 ≤ parts.length) && parts.dropLast.all domainLabelOk &&
      (match parts.getLast? with
       | some t => tldOk t
       | none => false))
   | _ => false)

/-- The field issues of `signUpSchema.safeParse` on `{name, email, password}`,
in schema order: `name` trimmed then length-checked with the two configured
messages, `email` trimmed then matched, `password` length-checked untrimmed. -/
def signUpSchema.issues (name email password : String) : List (String × String) :=
  ((if utf16Length (jsTrim name) < 2 then [("name", "Name must be at least 2 characters")] else []) ++
   (if 100 < utf16Length (jsTrim name) then [("name", "Name must be less than 100 characters")] else [])) ++
  (if zodEmailCheck (jsTrim email) then [] else [("email", "Invalid email address")]) ++
  ((if utf16Length password < 6 then [("password", "Password must be at least 6 characters")] else []) ++
   (if 256 < utf16Length password then [("password", "Password is too long")] else []))

/-- `signUpSchema.safeParse` on string fields: the parsed (trimmed) data, or
the field issues. -/
def signUpSchema.safeParse (name email password : String) :
    Except (List (String × String)) SignUpInput :=
  match signUpSchema.issues name email password with
  | [] => Except.ok ⟨jsTrim name, jsTrim email, password⟩
  | issues => Except.error issues

/-- The field issues of `signInSchema.safeParse`: as `signUpSchema` without
the name field. -/
def signInSchema.issues (email password : String) : List (String × String) :=
  (if zodEmailCheck (jsTrim email) then [] else [("email", "Invalid email address")]) ++
  ((if utf16Length password < 6 then [("password", "Password must be at least 6 characters")] else []) ++
   (if 256 < utf16Length password then [("password", "Password is too long")] else []))

def signInSchema.safeParse (email password : String) :
    Except (List (String × String)) SignInInput :=
  match signInSchema.issues email password with
  | [] => Except.ok ⟨jsTrim email, password⟩
  | issues => Except.error issues

/-- Modelled from the spec: the sign-in form's submission handler (the login
page component is not among the provided sources; §4.2 and §7 of the spec fix
its contract).  It validates with `signInSchema` first; a validation failure
is "reported field-by-field and must block the network call entirely", so
only a successful parse reaches `authService.signIn`.  Returns whether the
network was called, the resulting store, and the field errors shown. -/
def handleSignIn (email password : String) (resp : HttpResponse) (st : Store) :
    Bool × Store × List (String × String) :=
  match signInSchema.safeParse email password with
  | Except.error issues => (false, st, issues)
  | Except.ok data => (true, (authService.signIn data resp st).2.1, [])

/-! ## Round trip of the stored user record -/

theorem hexVal_hexDigit : ∀ n < 16, hexVal (hexDigit n) = some n := by decide

theorem parseStringBody_escape (s : List Char) : ∀ (fuel : Nat), s.length < fuel →
    ∀ rest : List Char, parseStringBody fuel (escapeChars s ++ '"' :: rest) = some (s, rest) := by
  induction s with
  | nil =>
    intro fuel hf rest
    cases fuel with
    | zero => omega
    | succ f =>
      rw [show escapeChars [] = [] from rfl, List.nil_append, parseStringBody.eq_def]
      simp
  | cons c cs ih =>
    intro fuel hf rest
    cases fuel with
    | zero => simp at hf
    | succ f =>
      have hf2 : cs.length < f := by simp [List.length_cons] at hf; omega
      have ihf := ih f hf2 rest
      have hsplit : escapeChars (c :: cs) ++ '"' :: rest =
          escapeChar c ++ (escapeChars cs ++ '"' :: rest) := by
        simp [escapeChars]
      rw [hsplit]
      by_cases h1 : c = '"'
      · subst h1
        rw [show escapeChar '"' = ['\\', '"'] from rfl]
        rw [List.cons_append, List.cons_append, List.nil_append, parseStringBody.eq_def]
        simp [ihf]
      · by_cases h2 : c = '\\'
        · subst h2
          rw [show escapeChar '\\' = ['\\', '\\'] from rfl]
          rw [List.cons_append, List.cons_append, List.nil_append, parseStringBody.eq_def]
          simp [ihf]
        · by_cases h3 : c = '\x08'
          · subst h3
            rw [show escapeChar '\x08' = ['\\', 'b'] from rfl]
            rw [List.cons_append, List.cons_append, List.nil_append, parseStringBody.eq_def]
            simp [ihf]
          · by_cases h4 : c = '\t'
            · subst h4
              rw [show escapeChar '\t' = ['\\', 't'] from rfl]
              rw [List.cons_append, List.cons_append, List.nil_append, parseStringBody.eq_def]
              simp [ihf]
            · by_cases h5 : c = '\n'
              · subst h5
                rw [show escapeChar '\n' = ['\\', 'n'] from rfl]
                rw [List.cons_append, List.cons_append, List.nil_append, parseStringBody.eq_def]
                simp [ihf]
              · by_cases h6 : c = '\x0c'
                · subst h6
                  rw [show escapeChar '\x0c' = ['\\', 'f'] from rfl]
                  rw [List.cons_append, List.cons_append, List.nil_append, parseStringBody.eq_def]
                  simp [ihf]
                · by_cases h7 : c = '\x0d'
                  · subst h7
                    rw [show escapeChar '\x0d' = ['\\', 'r'] from rfl]
                    rw [List.cons_append, List.cons_append, List.nil_append, parseStringBody.eq_def]
                    simp [ihf]
                  · by_cases h8 : c.toNat < 32
                    · have he : escapeChar c =
                          ['\\', 'u', '0', '0', hexDigit (c.toNat / 16), hexDigit (c.toNat % 16)] := by
                        simp [escapeChar, h1, h2, h3, h4, h5, h6, h7, h8]
                      rw [he]
                      simp only [List.cons_append, List.nil_append]
                      rw [parseStringBody.eq_def]
                      have hq : hexVal (hexDigit (c.toNat / 16)) = some (c.toNat / 16) :=
                        hexVal_hexDigit _ (by omega)
                      have hr : hexVal (hexDigit (c.toNat % 16)) = some (c.toNat % 16) :=
                        hexVal_hexDigit _ (by omega)
                      simp [hex4, hq, hr, show hexVal '0' = some 0 from rfl]
                      have harith : c.toNat / 16 * 16 + c.toNat % 16 = c.toNat := by omega
                      rw [harith]
                      rw [if_neg (by omega), if_neg (by omega)]
                      simp [Char.ofNat_toNat, ihf]
                    · have he : escapeChar c = [c] := by
                        simp [escapeChar, h1, h2, h3, h4, h5, h6, h7, h8]
                      rw [he]
                      simp only [List.cons_append, List.nil_append]
                      rw [parseStringBody.eq_def]
                      simp [h1, h2, h8, ihf]

theorem escapeChars_length (s : List Char) : s.length ≤ (escapeChars s).length := by
  induction s with
  | nil => simp [escapeChars]
  | cons c cs ih =>
    have h : escapeChars (c :: cs) = escapeChar c ++ escapeChars cs := by simp [escapeChars]
    have hc : 1 ≤ (escapeChar c).length := by
      unfold escapeChar
      split_ifs <;> simp
    rw [h]
    simp only [List.length_append, List.length_cons]
    omega

theorem parseStr_escape (s rest : List Char) :
    parseStr (escapeChars s ++ '"' :: rest) = some (s, rest) := by
  unfold parseStr
  refine parseStringBody_escape s _ ?_ rest
  have := escapeChars_length s
  simp only [List.length_append, List.length_cons]
  omega

theorem parseValue_string (f : Nat) (v : String) (rest : List Char) :
    parseValue (f + 1) ('"' :: (escapeChars v.data ++ '"' :: rest)) = some (Json.str v, rest) := by
  rw [parseValue.eq_def]
  simp [skipWs, isWs, parseStr_escape]

theorem parseMembers_str_last (f : Nat) (k v : String) (rest : List Char) :
    parseMembers (f + 2)
      ('"' :: (escapeChars k.data ++ '"' :: ':' :: '"' :: (escapeChars v.data ++ '"' :: '}' :: rest))) =
      some ([(k, Json.str v)], rest) := by
  rw [parseMembers.eq_def]
  simp [skipWs, isWs, parseStr_escape, parseValue_string]

theorem parseMembers_str_cons (f : Nat) (k v : String) (rest : List Char) :
    parseMembers (f + 2)
      ('"' :: (escapeChars k.data ++ '"' :: ':' :: '"' :: (escapeChars v.data ++ '"' :: ',' :: rest))) =
      (parseMembers (f + 1) rest).map (fun p => ((k, Json.str v) :: p.1, p.2)) := by
  rw [parseMembers.eq_def]
  simp [skipWs, isWs, parseStr_escape, parseValue_string]

theorem parseValue_stringifyUser (f : Nat) (u : AuthUser) (rest : List Char) :
    parseValue (f + 5) ((stringifyUser u).data ++ rest) = some (userToJson u, rest) := by
  obtain ⟨uid, uemail, uname⟩ := u
  cases uname with
  | none =>
    show parseValue (f + 5) (('{' :: (quoteStr "id" ++ ':' :: quoteStr uid ++
      ',' :: quoteStr "email" ++ ':' :: quoteStr uemail ++ [] ++ ['}'])) ++ rest) = _
    rw [parseValue.eq_def]
    simp only [quoteStr, List.cons_append, List.append_assoc, List.nil_append,
      List.singleton_append, List.append_nil]
    simp [skipWs, isWs, userToJson]
    rw [show ['i', 'd'] = ("id" : String).data from rfl,
      show ['e', 'm', 'a', 'i', 'l'] = ("email" : String).data from rfl]
    rw [show f + 4 = (f + 2) + 2 from rfl, parseMembers_str_cons]
    rw [show f + 2 + 1 = (f + 1) + 2 from rfl, parseMembers_str_last]
    simp
  | some n =>
    show parseValue (f + 5) (('{' :: (quoteStr "id" ++ ':' :: quoteStr uid ++
      ',' :: quoteStr "email" ++ ':' :: quoteStr uemail ++
      (',' :: quoteStr "name" ++ ':' :: quoteStr n) ++ ['}'])) ++ rest) = _
    rw [parseValue.eq_def]
    simp only [quoteStr, List.cons_append, List.append_assoc, List.nil_append,
      List.singleton_append, List.append_nil]
    simp [skipWs, isWs, userToJson]
    rw [show ['i', 'd'] = ("id" : String).data from rfl,
      show ['e', 'm', 'a', 'i', 'l'] = ("email" : String).data from rfl,
      show ['n', 'a', 'm', 'e'] = ("name" : String).data from rfl]
    rw [show f + 4 = (f + 2) + 2 from rfl, parseMembers_str_cons]
    rw [show f + 2 + 1 = (f + 1) + 2 from rfl, parseMembers_str_cons]
    rw [show f + 1 + 1 = f + 2 from rfl, parseMembers_str_last]
    simp

theorem stringifyUser_data_ne_nil (u : AuthUser) : (stringifyUser u).data ≠ [] := by
  obtain ⟨uid, uemail, uname⟩ := u
  cases uname <;> simp [stringifyUser]

theorem stringifyUser_length (u : AuthUser) : 4 ≤ (stringifyUser u).data.length := by
  obtain ⟨uid, uemail, uname⟩ := u
  cases uname <;> simp [stringifyUser, quoteStr, List.length_append] <;> omega

theorem jsonParse_stringifyUser (u : AuthUser) :
    jsonParse (stringifyUser u) = Except.ok (userToJson u) := by
  have hlen := stringifyUser_length u
  have hf : (stringifyUser u).data.length + 1 = ((stringifyUser u).data.length - 4) + 5 := by
    omega
  have h := parseValue_stringifyUser ((stringifyUser u).data.length - 4) u []
  rw [List.append_nil] at h
  unfold jsonParse
  rw [hf, h]
  simp [skipWs]

theorem userStorage_roundTrip (u : AuthUser) (st : Store) :
    userStorage.get (userStorage.set u st) = Except.ok (userToJson u) := by
  have hne : stringifyUser u = "" → False := by
    intro h
    exact stringifyUser_data_ne_nil u (congrArg String.data h)
  simp [userStorage.get, userStorage.set, jsonParse_stringifyUser]
  intro h
  exact absurd h hne

/-! ## The claims -/

/-- C1, counterexample: a stored empty-string token is a stored token value,
yet `getAuthHeader()` returns the empty mapping for it, not
`{Authorization: "Bearer "}` — the claim fails at the empty string. -/
theorem claim_C1_counterexample :
    tokenStorage.get { token := some "", user := none } = some "" ∧
    tokenStorage.getAuthHeader { token := some "", user := none } = [] ∧
    ([] : List (String × String)) ≠ [("Authorization", "Bearer ")] :=
  ⟨rfl, rfl, by decide⟩

/-- C1, amended: for every stored non-empty token, `getAuthHeader()` returns
exactly the one-entry mapping `{Authorization: "Bearer <token>"}`; it returns
the empty mapping exactly when no token is stored or the stored token is the
empty string. -/
theorem claim_C1_amended :
    (∀ (st : Store) (t : String), tokenStorage.get st = some t → t ≠ "" →
      tokenStorage.getAuthHeader st = [("Authorization", "Bearer " ++ t)]) ∧
    (∀ st : Store, tokenStorage.getAuthHeader st = [] ↔
      (tokenStorage.get st = none ∨ tokenStorage.get st = some "")) := by
  constructor
  · intro st t h ht
    simp [tokenStorage.getAuthHeader, h, ht]
  · intro st
    rcases hget : tokenStorage.get st with _ | t
    · simp [tokenStorage.getAuthHeader, hget]
    · by_cases ht : t = ""
      · subst ht
        simp [tokenStorage.getAuthHeader, hget]
      · simp [tokenStorage.getAuthHeader, hget, ht]

/-- C1, witness: the amended statement at the stored token `"tok"` and at the
empty store. -/
theorem claim_C1_witness :
    tokenStorage.getAuthHeader { token := some "tok", user := none } =
      [("Authorization", "Bearer tok")] ∧
    tokenStorage.getAuthHeader initialStore = [] := by
  constructor
  · rw [claim_C1_amended.1 { token := some "tok", user := none } "tok" rfl (by decide)]
    decide
  · exact (claim_C1_amended.2 initialStore).mpr (Or.inl rfl)

/-- C2: when the backend answers any sign-up or sign-in call with a non-2xx
status, the call throws, the store is returned exactly as it was (no write),
and `isAuthenticated()` afterwards equals its value before the call. -/
theorem claim_C2 (dU : SignUpInput) (dI : SignInInput) (body : String) (st : Store) :
    ((authService.signUp dU (HttpResponse.fail body) st).2.1 = st ∧
      (∃ m, (authService.signUp dU (HttpResponse.fail body) st).1 = Except.error m) ∧
      authService.isAuthenticated (authService.signUp dU (HttpResponse.fail body) st).2.1 =
        authService.isAuthenticated st) ∧
    ((authService.signIn dI (HttpResponse.fail body) st).2.1 = st ∧
      (∃ m, (authService.signIn dI (HttpResponse.fail body) st).1 = Except.error m) ∧
      authService.isAuthenticated (authService.signIn dI (HttpResponse.fail body) st).2.1 =
        authService.isAuthenticated st) :=
  ⟨⟨rfl, ⟨_, rfl⟩, rfl⟩, ⟨rfl, ⟨_, rfl⟩, rfl⟩⟩

/-- C6, counterexample: the stored empty string is not valid JSON (parsing it
fails), yet `userStorage.get()` returns absence (the JS `null`) instead of
propagating a parse failure — `user ? JSON.parse(user) : null` is falsy on
`""`. -/
theorem claim_C6_counterexample :
    jsonParse "" = Except.error syntaxErrorMsg ∧
    userStorage.get { token := none, user := some "" } = Except.ok Json.null :=
  ⟨rfl, rfl⟩

/-- C6, amended: when the persisted user slot holds a non-empty string that
is not valid JSON, the parse failure propagates to the caller of
`userStorage.get()` as an uncaught error; the empty stored string is instead
treated as absence. -/
theorem claim_C6_amended (tok : Option String) (s e : String)
    (hparse : jsonParse s = Except.error e) (hne : s ≠ "") :
    userStorage.get { token := tok, user := some s } = Except.error e := by
  simp [userStorage.get, hne, hparse]

/-- C6, witness: the amended statement at the stored text `"not json"`. -/
theorem claim_C6_witness :
    userStorage.get { token := none, user := some "not json" } =
      Except.error syntaxErrorMsg :=
  claim_C6_amended none "not json" syntaxErrorMsg rfl (by decide)

/-- C7: `signOut()` is idempotent — from any store, a second `signOut` leaves
the same empty store as the first, both calls succeed (they are total), and
each broadcasts exactly one `auth:changed` notification carrying an absent
user. -/
theorem claim_C7 (st : Store) :
    (authService.signOut (authService.signOut st).1).1 = (authService.signOut st).1 ∧
    (authService.signOut st).1 = initialStore ∧
    (authService.signOut st).2 = [none] ∧
    (authService.signOut (authService.signOut st).1).2 = [none] :=
  ⟨rfl, rfl, rfl, rfl⟩

/-- C8: storing any user record (optional name present or omitted) and
reading it back yields exactly the record's JSON value — the
serialize/deserialize round trip through the persisted slot is lossless. -/
theorem claim_C8 (u : AuthUser) (st : Store) :
    userStorage.get (userStorage.set u st) = Except.ok (userToJson u) :=
  userStorage_roundTrip u st

/-- C3, counterexample: HTTP failure body `{"detail":""}` is parseable JSON
containing a message field, yet the thrown message is the generic
"Sign in failed", not the payload's `""` — so the generic fallback does not
occur exactly when the payload is absent or invalid. -/
theorem claim_C3_counterexample :
    jsonParse "\x7b\"detail\":\"\"\x7d" = Except.ok (Json.obj [("detail", Json.str "")]) ∧
    (authApi.signIn ⟨"ann@example.com", "secret1"⟩
      (HttpResponse.fail "\x7b\"detail\":\"\"\x7d")).1 = Except.error "Sign in failed" ∧
    ("Sign in failed" : String) ≠ "" :=
  ⟨rfl, rfl, by decide⟩

/-- C3, amended: the thrown message is the payload's `detail` field when the
body parses to an object whose `detail` is a non-empty string; it is the
generic fallback ("Sign in failed" / "Sign up failed") when the body is
absent or not valid JSON, and also when the parsed object has no `detail`
field or its `detail` is the empty string. -/
theorem claim_C3_amended :
    (∀ (d : SignInInput) (body : String) (ms : List (String × Json)) (s : String),
      jsonParse body = Except.ok (Json.obj ms) →
      jsonLookupLast ms "detail" = some (Json.str s) → s ≠ "" →
      (authApi.signIn d (HttpResponse.fail body)).1 = Except.error s) ∧
    (∀ (d : SignInInput) (body e : String), jsonParse body = Except.error e →
      (authApi.signIn d (HttpResponse.fail body)).1 = Except.error "Sign in failed") ∧
    (∀ (d : SignInInput) (body : String) (ms : List (String × Json)),
      jsonParse body = Except.ok (Json.obj ms) →
      jsonLookupLast ms "detail" = none →
      (authApi.signIn d (HttpResponse.fail body)).1 = Except.error "Sign in failed") ∧
    (∀ (d : SignInInput) (body : String) (ms : List (String × Json)),
      jsonParse body = Except.ok (Json.obj ms) →
      jsonLookupLast ms "detail" = some (Json.str "") →
      (authApi.signIn d (HttpResponse.fail body)).1 = Except.error "Sign in failed") ∧
    (∀ (d : SignUpInput) (body : String) (ms : List (String × Json)) (s : String),
      jsonParse body = Except.ok (Json.obj ms) →
      jsonLookupLast ms "detail" = some (Json.str s) → s ≠ "" →
      (authApi.signUp d (HttpResponse.fail body)).1 = Except.error s) ∧
    (∀ (d : SignUpInput) (body e : String), jsonParse body = Except.error e →
      (authApi.signUp d (HttpResponse.fail body)).1 = Except.error "Sign up failed") := by
  refine ⟨?_, ?_, ?_, ?_, ?_, ?_⟩
  · intro d body ms s hparse hlook hs
    simp [authApi.signIn, hparse, errorDetailMessage, hlook, jsTruthy, hs, jsToString]
  · intro d body e hparse
    simp [authApi.signIn, hparse, errorDetailMessage, jsonLookupLast, jsTruthy, jsToString]
  · intro d body ms hparse hlook
    simp [authApi.signIn, hparse, errorDetailMessage, hlook]
  · intro d body ms hparse hlook
    simp [authApi.signIn, hparse, errorDetailMessage, hlook, jsTruthy]
  · intro d body ms s hparse hlook hs
    simp [authApi.signUp, hparse, errorDetailMessage, hlook, jsTruthy, hs, jsToString]
  · intro d body e hparse
    simp [authApi.signUp, hparse, errorDetailMessage, jsonLookupLast, jsTruthy, jsToString]

/-- C3, witness: the two sign-in scenarios of the spec — a 401 body
`{"detail":"Invalid credentials"}` yields exactly "Invalid credentials", and
an unparseable 500 body yields the generic "Sign in failed". -/
theorem claim_C3_witness :
    (authApi.signIn ⟨"ann@example.com", "secret1"⟩
      (HttpResponse.fail "\x7b\"detail\":\"Invalid credentials\"\x7d")).1 =
      Except.error "Invalid credentials" ∧
    (authApi.signIn ⟨"ann@example.com", "secret1"⟩ (HttpResponse.fail "garbage")).1 =
      Except.error "Sign in failed" :=
  ⟨claim_C3_amended.1 ⟨"ann@example.com", "secret1"⟩ _
      [("detail", Json.str "Invalid credentials")] "Invalid credentials" rfl rfl (by decide),
    claim_C3_amended.2.1 ⟨"ann@example.com", "secret1"⟩ _ syntaxErrorMsg rfl⟩

/-- C4, counterexample: a successful sign-up whose response carries the empty
token stores the response, yet `isAuthenticated()` is then false (the JS
`!!token` is false on `""`), so the claim fails for that response. -/
theorem claim_C4_counterexample :
    (authService.signUp ⟨"Ann", "ann@example.com", "secret1"⟩
      (HttpResponse.ok ⟨"", ⟨"u1", "ann@example.com", some "Ann"⟩⟩) initialStore).1 =
      Except.ok ⟨"", ⟨"u1", "ann@example.com", some "Ann"⟩⟩ ∧
    authService.isAuthenticated
      (authService.signUp ⟨"Ann", "ann@example.com", "secret1"⟩
        (HttpResponse.ok ⟨"", ⟨"u1", "ann@example.com", some "Ann"⟩⟩) initialStore).2.1 = false :=
  ⟨rfl, rfl⟩

/-- C4, amended: for every sign-up input, if the backend call succeeds and
returns `{token, user}` with a non-empty token, then immediately after
`authService.signUp` returns, `isAuthenticated()` is true and
`getCurrentUser()` returns exactly the user of the response. -/
theorem claim_C4_amended (d : SignUpInput) (tok : String) (u : AuthUser) (st : Store)
    (htok : tok ≠ "") :
    (authService.signUp d (HttpResponse.ok ⟨tok, u⟩) st).1 = Except.ok ⟨tok, u⟩ ∧
    authService.isAuthenticated
      (authService.signUp d (HttpResponse.ok ⟨tok, u⟩) st).2.1 = true ∧
    authService.getCurrentUser
      (authService.signUp d (HttpResponse.ok ⟨tok, u⟩) st).2.1 = Except.ok (userToJson u) := by
  refine ⟨rfl, ?_, ?_⟩
  · simp [authService.signUp, authApi.signUp, authService.isAuthenticated,
      tokenStorage.get, tokenStorage.set, userStorage.set, htok]
  · show authService.getCurrentUser (userStorage.set u (tokenStorage.set tok st)) = _
    exact userStorage_roundTrip u (tokenStorage.set tok st)

/-- C4, witness: the amended statement at the spec's scenario — signing up
Ann with the returned token `"tok1"`. -/
theorem claim_C4_witness :
    (authService.signUp ⟨"Ann", "ann@example.com", "secret1"⟩
      (HttpResponse.ok ⟨"tok1", ⟨"u1", "ann@example.com", some "Ann"⟩⟩) initialStore).1 =
      Except.ok ⟨"tok1", ⟨"u1", "ann@example.com", some "Ann"⟩⟩ ∧
    authService.isAuthenticated
      (authService.signUp ⟨"Ann", "ann@example.com", "secret1"⟩
        (HttpResponse.ok ⟨"tok1", ⟨"u1", "ann@example.com", some "Ann"⟩⟩) initialStore).2.1 = true ∧
    authService.getCurrentUser
      (authService.signUp ⟨"Ann", "ann@example.com", "secret1"⟩
        (HttpResponse.ok ⟨"tok1", ⟨"u1", "ann@example.com", some "Ann"⟩⟩) initialStore).2.1 =
      Except.ok (userToJson ⟨"u1", "ann@example.com", some "Ann"⟩) :=
  claim_C4_amended ⟨"Ann", "ann@example.com", "secret1"⟩ "tok1"
    ⟨"u1", "ann@example.com", some "Ann"⟩ initialStore (by decide)

theorem applyOp_inv (st : Store) (op : AuthOp)
    (h : st.user.isSome = st.token.isSome) :
    (applyOp st op).user.isSome = (applyOp st op).token.isSome := by
  cases op with
  | signUp d r =>
    cases r with
    | ok b =>
      simp [applyOp, authService.signUp, authApi.signUp, tokenStorage.set, userStorage.set]
    | fail body =>
      simpa [applyOp, authService.signUp, authApi.signUp] using h
    | netError m =>
      simpa [applyOp, authService.signUp, authApi.signUp] using h
  | signIn d r =>
    cases r with
    | ok b =>
      simp [applyOp, authService.signIn, authApi.signIn, tokenStorage.set, userStorage.set]
    | fail body =>
      simpa [applyOp, authService.signIn, authApi.signIn] using h
    | netError m =>
      simpa [applyOp, authService.signIn, authApi.signIn] using h
  | signOut =>
    simp [applyOp, authService.signOut, tokenStorage.remove, userStorage.remove]

theorem foldl_applyOp_inv (ops : List AuthOp) : ∀ st : Store,
    st.user.isSome = st.token.isSome →
    (ops.foldl applyOp st).user.isSome = (ops.foldl applyOp st).token.isSome := by
  induction ops with
  | nil => intro st h; simpa using h
  | cons op rest ih =>
    intro st h
    simp only [List.foldl_cons]
    exact ih _ (applyOp_inv st op h)

/-- C5: in every store reachable from the initial empty store by any sequence
of `authService` operations (successful or failed sign-up/sign-in, sign-out),
the user slot is occupied exactly when the token slot is — each operation
writes both or clears both together, or touches neither. -/
theorem claim_C5 (ops : List AuthOp) :
    (runOps ops).user.isSome = (runOps ops).token.isSome :=
  foldl_applyOp_inv ops initialStore rfl

theorem signUpSchema_issues_nil_iff (nm em pw : String) :
    signUpSchema.issues nm em pw = [] ↔
      (2 ≤ utf16Length (jsTrim nm) ∧ utf16Length (jsTrim nm) ≤ 100 ∧
        zodEmailCheck (jsTrim em) = true ∧ 6 ≤ utf16Length pw ∧ utf16Length pw ≤ 256) := by
  unfold signUpSchema.issues
  split_ifs <;> simp_all

theorem signInSchema_issues_nil_iff (em pw : String) :
    signInSchema.issues em pw = [] ↔
      (zodEmailCheck (jsTrim em) = true ∧ 6 ≤ utf16Length pw ∧ utf16Length pw ≤ 256) := by
  unfold signInSchema.issues
  split_ifs <;> simp_all

/-- C9: the sign-up schema accepts exactly when the trimmed name is 2 to 100
units long, the trimmed email matches the email grammar, and the password is
6 to 256 units long (sign-in: the same without the name); a five-unit
password is reported as the field-scoped issue "Password must be at least 6
characters"; and a validation failure blocks the network call entirely — the
handler returns the pre-call store, the field issues, and no network use. -/
theorem claim_C9 :
    (∀ nm em pw : String,
      (∃ d, signUpSchema.safeParse nm em pw = Except.ok d) ↔
        (2 ≤ utf16Length (jsTrim nm) ∧ utf16Length (jsTrim nm) ≤ 100 ∧
          zodEmailCheck (jsTrim em) = true ∧ 6 ≤ utf16Length pw ∧ utf16Length pw ≤ 256)) ∧
    (∀ em pw : String,
      (∃ d, signInSchema.safeParse em pw = Except.ok d) ↔
        (zodEmailCheck (jsTrim em) = true ∧ 6 ≤ utf16Length pw ∧ utf16Length pw ≤ 256)) ∧
    (∀ em pw : String, utf16Length pw = 5 →
      ∃ issues, signInSchema.safeParse em pw = Except.error issues ∧
        ("password", "Password must be at least 6 characters") ∈ issues) ∧
    (∀ (em pw : String) (resp : HttpResponse) (st : Store) (issues : List (String × String)),
      signInSchema.safeParse em pw = Except.error issues →
      handleSignIn em pw resp st = (false, st, issues)) := by
  refine ⟨?_, ?_, ?_, ?_⟩
  · intro nm em pw
    rcases h : signUpSchema.issues nm em pw with _ | ⟨i, rest⟩
    · simp [signUpSchema.safeParse, h, ← signUpSchema_issues_nil_iff]
    · rw [← signUpSchema_issues_nil_iff nm em pw]
      simp [signUpSchema.safeParse, h]
  · intro em pw
    rcases h : signInSchema.issues em pw with _ | ⟨i, rest⟩
    · simp [signInSchema.safeParse, h, ← signInSchema_issues_nil_iff]
    · rw [← signInSchema_issues_nil_iff em pw]
      simp [signInSchema.safeParse, h]
  · intro em pw hlen
    refine ⟨signInSchema.issues em pw, ?_, ?_⟩
    · have hne : signInSchema.issues em pw ≠ [] := by
        rw [Ne, signInSchema_issues_nil_iff]
        omega
      unfold signInSchema.safeParse
      rcases h : signInSchema.issues em pw with _ | ⟨i, rest⟩
      · exact absurd h hne
      · simp
    · unfold signInSchema.issues
      have h5 : utf16Length pw < 6 := by omega
      simp [h5]
  · intro em pw resp st issues herr
    unfold handleSignIn
    rw [herr]

/-- C9, witness: the spec's scenario — a sign-in with the five-character
password "12345" is rejected with the password issue and, through the
handler, performs no network call and leaves the store untouched. -/
theorem claim_C9_witness :
    (∃ issues, signInSchema.safeParse "ann@example.com" "12345" = Except.error issues ∧
      ("password", "Password must be at least 6 characters") ∈ issues) ∧
    handleSignIn "ann@example.com" "12345" (HttpResponse.fail "x") initialStore =
      (false, initialStore, [("password", "Password must be at least 6 characters")]) :=
  ⟨claim_C9.2.2.1 "ann@example.com" "12345" rfl,
    claim_C9.2.2.2 "ann@example.com" "12345" (HttpResponse.fail "x") initialStore
      [("password", "Password must be at least 6 characters")] rfl⟩

/-- C10: both gateway calls log the full request record — the plaintext
password included — as the first log entry, before any response handling;
consequently two invocations differing only in the password always produce
different log output, for every backend behaviour. -/
theorem claim_C10 :
    (∀ (d : SignInInput) (resp : HttpResponse),
      (authApi.signIn d resp).2.head? = some ("SIGNIN_REQUEST", some (signInInputToJson d))) ∧
    (∀ (d : SignUpInput) (resp : HttpResponse),
      (authApi.signUp d resp).2.head? = some ("SIGNUP_REQUEST", some (signUpInputToJson d))) ∧
    (∀ (em p1 p2 : String) (resp : HttpResponse), p1 ≠ p2 →
      (authApi.signIn ⟨em, p1⟩ resp).2 ≠ (authApi.signIn ⟨em, p2⟩ resp).2) ∧
    (∀ (nm em p1 p2 : String) (resp : HttpResponse), p1 ≠ p2 →
      (authApi.signUp ⟨nm, em, p1⟩ resp).2 ≠ (authApi.signUp ⟨nm, em, p2⟩ resp).2) := by
  refine ⟨?_, ?_, ?_, ?_⟩
  · intro d resp
    cases resp <;> rfl
  · intro d resp
    cases resp <;> rfl
  · intro em p1 p2 resp hne h
    apply hne
    cases resp <;> simpa [authApi.signIn, signInInputToJson] using h
  · intro nm em p1 p2 resp hne h
    apply hne
    cases resp <;> simpa [authApi.signUp, signUpInputToJson] using h

/-- C10, witness: the non-interference violation at two concrete sign-in
requests differing only in the password. -/
theorem claim_C10_witness :
    (authApi.signIn ⟨"ann@example.com", "secret1"⟩ (HttpResponse.netError "down")).2 ≠
      (authApi.signIn ⟨"ann@example.com", "secret2"⟩ (HttpResponse.netError "down")).2 :=
  claim_C10.2.2.1 "ann@example.com" "secret1" "secret2" (HttpResponse.netError "down")
    (by decide)
